import Mathlib

/-!
Shallow embedding of the ZeroTrust-Defender dashboard client
(`src/client_agent_fastapi/static/dashboard.js`,
`src/central_system/admin/static/js/dashboard.js`,
`src/central_system/console/static/js/dashboard.js`).

The embedding follows the JavaScript source function by function:
DOM rendering is projected onto the data it displays, browser timers are
represented as explicit pending-timer records, and each WebSocket callback
becomes a state-transition function.
-/

namespace ZeroTrust

/-! ## StatsSnapshot and updateThreatStats (dashboard.js lines 194-205)

The threat-stats panel shows five named counters.  An incoming
`detection_stats` object may omit fields; the JS reads each field with
`stats.field || 0`.  A partial snapshot is therefore a record of optional
values, and the displayed snapshot a record of naturals. -/

/-- The five counters rendered by `updateThreatStats`. -/
structure StatsSnapshot where
  total_detections : Nat := 0
  layer1_supervised : Nat := 0
  layer2_anomaly : Nat := 0
  layer3_rules : Nat := 0
  layer4_slow : Nat := 0
deriving DecidableEq, Repr

/-- An incoming `detection_stats` object: every field may be absent. -/
structure PartialStats where
  total_detections : Option Nat := none
  layer1_supervised : Option Nat := none
  layer2_anomaly : Option Nat := none
  layer3_rules : Option Nat := none
  layer4_slow : Option Nat := none
deriving DecidableEq, Repr

/-- Initial snapshot: all counters start at 0. -/
def initStats : StatsSnapshot := {}

/-- Embedding of `updateThreatStats(stats)` (dashboard.js 194-205).
The JS guard `if (statsElement && stats)` skips a falsy `stats` argument
(modelled as `none`); otherwise it rewrites the whole panel, reading each
field with a `|| 0` fallback. -/
def updateThreatStats (cur : StatsSnapshot) (stats : Option PartialStats) :
    StatsSnapshot :=
  match stats with
  | none => cur
  | some p =>
    { total_detections := p.total_detections.getD 0
      layer1_supervised := p.layer1_supervised.getD 0
      layer2_anomaly := p.layer2_anomaly.getD 0
      layer3_rules := p.layer3_rules.getD 0
      layer4_slow := p.layer4_slow.getD 0 }

/-! ## ConnectionManager (dashboard.js lines 1-66)

`AgentDashboard` holds `ws`, `isConnected`, `reconnectAttempts`,
`maxReconnectAttempts` and reports a status string via `updateStatus`. -/

/-- `this.maxReconnectAttempts = 5` (dashboard.js line 7). -/
def maxReconnectAttempts : Nat := 5

/-- Connection-relevant fields of `AgentDashboard`:
`ws` (projected to whether a socket object exists), `isConnected`,
`reconnectAttempts`, and the last string passed to `updateStatus`. -/
structure ConnState where
  hasWs : Bool
  isConnected : Bool
  reconnectAttempts : Nat
  status : String
deriving DecidableEq, Repr

/-- State after the constructor ran `initializeDashboard`
(`ws = null`, `isConnected = false`, `reconnectAttempts = 0`,
`updateStatus('initializing')`). -/
def initConnState : ConnState :=
  { hasWs := false, isConnected := false, reconnectAttempts := 0
    status := "initializing" }

/-- `connectWebSocket` assigns `this.ws = new WebSocket(wsUrl)`
(dashboard.js line 25): afterwards a socket object exists. -/
def connectWebSocket (s : ConnState) : ConnState :=
  { s with hasWs := true }

/-- Embedding of `attemptReconnect()` (dashboard.js 57-66).  Returns the
new state together with the delay of the scheduled `connectWebSocket`
retry, if one was scheduled (`setTimeout(..., 3000)`). -/
def attemptReconnect (s : ConnState) : ConnState × Option Nat :=
  if s.reconnectAttempts < maxReconnectAttempts then
    ({ s with reconnectAttempts := s.reconnectAttempts + 1 }, some 3000)
  else
    ({ s with status := "failed" }, none)

/-- Embedding of the `ws.onclose` handler (dashboard.js 39-44):
`isConnected = false`, `updateStatus('disconnected')`, then
`attemptReconnect()`. -/
def onClose (s : ConnState) : ConnState × Option Nat :=
  attemptReconnect { s with isConnected := false, status := "disconnected" }

/-- An outbound command object `{type: ...}`. -/
structure Command where
  type : String
deriving DecidableEq, Repr

/-- Embedding of `sendMessage(message)` (dashboard.js 309-315): transmits
over the socket only when `this.ws && this.isConnected`; otherwise logs
the error `WebSocket not connected` and performs no transport send.
Returns the list of frames given to the transport and the reported
error, if any. -/
def sendMessage (s : ConnState) (msg : Command) :
    List Command × Option String :=
  if s.hasWs && s.isConnected then ([msg], none)
  else ([], some "WebSocket not connected")

/-- `requestStatusUpdate()` (dashboard.js 305-307). -/
def requestStatusUpdate (s : ConnState) : List Command × Option String :=
  sendMessage s { type := "GET_STATUS" }

/-- Embedding of the `ws.onopen` handler (dashboard.js 27-33):
`isConnected = true`, `reconnectAttempts = 0`,
`updateStatus('connected')`, then `requestStatusUpdate()`.  Returns the
new state and the frames sent to the transport. -/
def onOpen (s : ConnState) : ConnState × List Command :=
  let s1 := { s with isConnected := true, reconnectAttempts := 0
                     status := "connected" }
  (s1, (requestStatusUpdate s1).1)

/-! ### Traces of transport events -/

/-- A transport lifecycle event delivered to the dashboard callbacks. -/
inductive ConnEvent
  | openEv
  | closeEv
deriving DecidableEq, Repr

/-- One callback step, instrumented with a ghost counter of reconnect
attempts scheduled since the last successful open. -/
def stepCount (p : ConnState × Nat) (e : ConnEvent) : ConnState × Nat :=
  match e with
  | ConnEvent.openEv => ((onOpen p.1).1, 0)
  | ConnEvent.closeEv =>
    let r := onClose p.1
    (r.1, if r.2.isSome then p.2 + 1 else p.2)

/-- Run a trace of transport events from the freshly constructed
dashboard (constructor already called `connectWebSocket`). -/
def runConn (evs : List ConnEvent) : ConnState × Nat :=
  evs.foldl stepCount (connectWebSocket initConnState, 0)

/-- Iterate the `onclose` handler `n` times (every connection attempt
fails), collecting the delays of all retries scheduled along the way. -/
def closesSchedule : ConnState → Nat → List Nat
  | _, 0 => []
  | s, n + 1 =>
    let r := onClose s
    r.2.toList ++ closesSchedule r.1 n

/-- Iterate the `onclose` handler `n` times, returning the final state. -/
def closeRunN : ConnState → Nat → ConnState
  | s, 0 => s
  | s, n + 1 => closeRunN (onClose s).1 n

/-! ## EventLog (dashboard.js lines 207-224)

`addToEventLog` builds a `div`, inserts it before `eventLog.firstChild`
(head insertion) and then runs
`while (eventLog.children.length > 50) removeChild(lastChild)`.
The list of children, newest first, is the log. -/

/-- `// Keep only last 50 entries` (dashboard.js line 220). -/
def maxLogEntries : Nat := 50

/-- One rendered log entry: the three pieces of data written into the
`div` (event type, message, severity level). -/
structure LogEntry where
  eventType : String
  message : String
  level : String
deriving DecidableEq, Repr

/-- The eviction loop
`while (eventLog.children.length > 50) removeChild(lastChild)`. -/
def trimLog (l : List LogEntry) : List LogEntry :=
  if h : l.length > maxLogEntries then trimLog l.dropLast else l
termination_by l.length
decreasing_by
  simp only [List.length_dropLast]
  omega

/-- Embedding of `addToEventLog(eventType, message, level)`
(dashboard.js 207-224): insert at the head, then evict from the tail
until at most 50 entries remain. -/
def addToEventLog (log : List LogEntry) (eventType msg level : String) :
    List LogEntry :=
  trimLog ({ eventType := eventType, message := msg, level := level } :: log)

/-! ## AlertPresenter (dashboard.js lines 124-143, console dashboard.js
lines 34-46)

`showAlert` builds an alert `div`, inserts it at the head of the alerts
container and schedules `removeChild` after 10000 ms; `showToast`
appends a toast to `document.body` and schedules `remove()` after
5000 ms.  Neither stores its timer handle.  We record each alert with
its creation time and each scheduled removal as a timer record. -/

structure Message where
  type : String
  data : String
  detection_stats : Option PartialStats
  actions : List String
  commands : List String
deriving DecidableEq, Repr

/-- What a handler passes to `showAlert` as second argument: either
`message.data` or the whole message object. -/
inductive AlertPayload
  | dataField (d : String)
  | wholeMessage (m : Message)
deriving DecidableEq, Repr

/-- One alert `div` in the alerts container. -/
structure AlertRec where
  id : Nat
  kind : String
  payload : AlertPayload
  createdAt : Nat
deriving DecidableEq, Repr

/-- A scheduled `setTimeout` removal for the alert with id `alertId`,
due at absolute time `fireAt`. -/
structure ATimer where
  alertId : Nat
  fireAt : Nat
deriving DecidableEq, Repr

/-- The alerts container together with its pending removal timers and a
fresh-id counter for newly created `div`s. -/
structure AlertSys where
  alerts : List AlertRec
  timers : List ATimer
  nextId : Nat
deriving DecidableEq, Repr

def initAlertSys : AlertSys := { alerts := [], timers := [], nextId := 0 }

/-- Embedding of `showAlert(type, data)` (dashboard.js 124-143): insert
the new alert before `firstChild` and schedule its removal 10000 ms
after creation. -/
def showAlert (st : AlertSys) (now : Nat) (kind : String)
    (payload : AlertPayload) : AlertSys :=
  { alerts := { id := st.nextId, kind := kind, payload := payload
                createdAt := now } :: st.alerts
    timers := { alertId := st.nextId, fireAt := now + 10000 } :: st.timers
    nextId := st.nextId + 1 }

/-- One toast element created by `showToast` (console dashboard.js). -/
structure ToastRec where
  id : Nat
  message : String
  toastType : String
deriving DecidableEq, Repr

/-- `document.body` toasts with their pending removal timers. -/
structure ToastSys where
  toasts : List ToastRec
  timers : List ATimer
  nextId : Nat
deriving DecidableEq, Repr

/-- Embedding of `showToast(message, type)` (console dashboard.js
34-46): `appendChild` adds the toast at the end and `setTimeout(() =>
toast.remove(), 5000)` schedules its removal 5000 ms later. -/
def showToast (st : ToastSys) (now : Nat) (message ttype : String) :
    ToastSys :=
  { toasts := st.toasts ++ [{ id := st.nextId, message := message
                              toastType := ttype }]
    timers := { alertId := st.nextId, fireAt := now + 5000 } :: st.timers
    nextId := st.nextId + 1 }

/-- Advance the clock to time `t`: every pending timer due by `t` fires
(removing its alert, guarded in the JS by `if (alertDiv.parentNode)`)
and is no longer pending. -/
def advanceTo (t : Nat) (st : AlertSys) : AlertSys :=
  let fired := st.timers.filter (fun tm => tm.fireAt ≤ t)
  { alerts := st.alerts.filter
      (fun a => fired.all (fun tm => tm.alertId ≠ a.id))
    timers := st.timers.filter (fun tm => t < tm.fireAt)
    nextId := st.nextId }

/-! ## Timer bookkeeping and teardown (admin dashboard.js lines 2-22 and
106-110, dashboard.js lines 57-66 and 124-143)

Browser timers created by the source, tagged by purpose.  Only
`DashboardUpdater.startRealTimeUpdates` stores its handle
(`this.statsInterval`); `attemptReconnect` and `showAlert` discard
theirs, so nothing can ever `clear` them. -/

inductive TimerKind
  | statsPoll
  | reconnect
  | alertExpiry (alertId : Nat)
deriving DecidableEq, Repr

/-- A live browser timer: the handle returned by
`setTimeout`/`setInterval` plus what its callback does. -/
structure PendingTimer where
  id : Nat
  kind : TimerKind
deriving DecidableEq, Repr

/-- `DashboardUpdater` state: the one stored timer handle
(`this.statsInterval`, admin dashboard.js line 4). -/
structure DashboardUpdater where
  statsInterval : Option Nat
deriving DecidableEq, Repr

/-- `startRealTimeUpdates()` (admin dashboard.js 13-22):
`this.statsInterval = setInterval(..., 5000)` — the handle is stored. -/
def startRealTimeUpdates (_u : DashboardUpdater) (freshId : Nat)
    (pending : List PendingTimer) :
    DashboardUpdater × List PendingTimer :=
  ({ statsInterval := some freshId },
   { id := freshId, kind := TimerKind.statsPoll } :: pending)

/-- `setTimeout(() => this.connectWebSocket(), 3000)` inside
`attemptReconnect` (dashboard.js line 61): the handle is discarded. -/
def scheduleReconnect (freshId : Nat) (pending : List PendingTimer) :
    List PendingTimer :=
  { id := freshId, kind := TimerKind.reconnect } :: pending

/-- `setTimeout(..., 10000)` inside `showAlert` (dashboard.js 138-142):
the handle is discarded. -/
def scheduleAlertExpiry (freshId alertId : Nat)
    (pending : List PendingTimer) : List PendingTimer :=
  { id := freshId, kind := TimerKind.alertExpiry alertId } :: pending

/-- Embedding of `DashboardUpdater.stop()` (admin dashboard.js 106-110):
`if (this.statsInterval) clearInterval(this.statsInterval)`.  This is
the only teardown routine in the source; it cancels exactly the timer
whose handle was stored. -/
def DashboardUpdater.stop (u : DashboardUpdater)
    (pending : List PendingTimer) : List PendingTimer :=
  match u.statsInterval with
  | some h => pending.filter (fun t => t.id ≠ h)
  | none => pending

/-! ## MessageRouter (dashboard.js lines 68-122)

`handleMessage` switches on `message.type` over six cases, with a
default branch that only logs the unknown type.  We track the mutable
dashboard state touched by the handlers and an ordered effect trace. -/

/-- The six message types with a registered handler
(dashboard.js 72-89). -/
def handledTypes : List String :=
  ["THREAT_DETECTED", "EMERGENCY_RESPONSE", "HIGH_ALERT_RESPONSE",
   "ENHANCED_MONITORING", "STATUS_UPDATE", "COMMAND_EXECUTED"]

/-- The dashboard state mutated by the message handlers: the alerts
container, the threat-stats panel, the event log, the console
diagnostics, and the current wall-clock time (used as `createdAt` for
new alerts). -/
structure DashState where
  alertSys : AlertSys
  stats : StatsSnapshot
  eventLog : List LogEntry
  diagnostics : List String
  now : Nat
deriving DecidableEq, Repr

/-- One observable effect of message handling, in execution order. -/
inductive Effect
  | alertShown (kind : String) (payload : AlertPayload)
  | statsUpdated (stats : Option PartialStats)
  | logAppended (eventType : String) (msg : String) (level : String)
  | diagnosticLogged (tag : String)
deriving DecidableEq, Repr

/-- `handleThreatDetected(message)` (dashboard.js 95-99):
`showAlert('threat', message.data)`, then
`updateThreatStats(message.detection_stats)`, then
`addToEventLog('THREAT_DETECTED', message.data, 'critical')`. -/
def handleThreatDetected (st : DashState) (m : Message) :
    DashState × List Effect :=
  ({ st with
      alertSys := showAlert st.alertSys st.now "threat"
        (AlertPayload.dataField m.data)
      stats := updateThreatStats st.stats m.detection_stats
      eventLog := addToEventLog st.eventLog "THREAT_DETECTED" m.data
        "critical" },
   [Effect.alertShown "threat" (AlertPayload.dataField m.data),
    Effect.statsUpdated m.detection_stats,
    Effect.logAppended "THREAT_DETECTED" m.data "critical"])

/-- `handleEmergencyResponse(message)` (dashboard.js 101-104). -/
def handleEmergencyResponse (st : DashState) (m : Message) :
    DashState × List Effect :=
  ({ st with
      alertSys := showAlert st.alertSys st.now "emergency"
        (AlertPayload.wholeMessage m)
      eventLog := addToEventLog st.eventLog "EMERGENCY_RESPONSE"
        ("Actions: " ++ String.intercalate ", " m.actions) "critical" },
   [Effect.alertShown "emergency" (AlertPayload.wholeMessage m),
    Effect.logAppended "EMERGENCY_RESPONSE"
      ("Actions: " ++ String.intercalate ", " m.actions) "critical"])

/-- `handleHighAlertResponse(message)` (dashboard.js 106-109). -/
def handleHighAlertResponse (st : DashState) (m : Message) :
    DashState × List Effect :=
  ({ st with
      alertSys := showAlert st.alertSys st.now "high"
        (AlertPayload.wholeMessage m)
      eventLog := addToEventLog st.eventLog "HIGH_ALERT"
        ("Actions: " ++ String.intercalate ", " m.actions) "warning" },
   [Effect.alertShown "high" (AlertPayload.wholeMessage m),
    Effect.logAppended "HIGH_ALERT"
      ("Actions: " ++ String.intercalate ", " m.actions) "warning"])

/-- `handleEnhancedMonitoring(message)` (dashboard.js 111-114). -/
def handleEnhancedMonitoring (st : DashState) (m : Message) :
    DashState × List Effect :=
  ({ st with
      alertSys := showAlert st.alertSys st.now "info"
        (AlertPayload.wholeMessage m)
      eventLog := addToEventLog st.eventLog "ENHANCED_MONITORING"
        "Enhanced monitoring activated" "info" },
   [Effect.alertShown "info" (AlertPayload.wholeMessage m),
    Effect.logAppended "ENHANCED_MONITORING"
      "Enhanced monitoring activated" "info"])

/-- `handleStatusUpdate(message)` (dashboard.js 116-118) calls
`updateDashboard`, whose only state mutation beyond rendering is
`updateThreatStats(statusData.detection_stats)` (dashboard.js
176-180; `updateSystemInfo` and `updateCharts` only redraw). -/
def handleStatusUpdate (st : DashState) (m : Message) :
    DashState × List Effect :=
  ({ st with stats := updateThreatStats st.stats m.detection_stats },
   [Effect.statsUpdated m.detection_stats])

/-- `handleCommandExecuted(message)` (dashboard.js 120-122). -/
def handleCommandExecuted (st : DashState) (m : Message) :
    DashState × List Effect :=
  ({ st with
      eventLog := addToEventLog st.eventLog "COMMAND_EXECUTED"
        ("Executed: " ++ String.intercalate ", " m.commands) "info" },
   [Effect.logAppended "COMMAND_EXECUTED"
      ("Executed: " ++ String.intercalate ", " m.commands) "info"])

/-- Embedding of `handleMessage(message)` (dashboard.js 68-93): the
`switch` on `message.type` compares the tag against each case label in
turn; the `default` branch only runs
`console.log('Unknown message type:', messageType)`. -/
def handleMessage (st : DashState) (m : Message) :
    DashState × List Effect :=
  if m.type = "THREAT_DETECTED" then handleThreatDetected st m
  else if m.type = "EMERGENCY_RESPONSE" then handleEmergencyResponse st m
  else if m.type = "HIGH_ALERT_RESPONSE" then handleHighAlertResponse st m
  else if m.type = "ENHANCED_MONITORING" then handleEnhancedMonitoring st m
  else if m.type = "STATUS_UPDATE" then handleStatusUpdate st m
  else if m.type = "COMMAND_EXECUTED" then handleCommandExecuted st m
  else ({ st with diagnostics := st.diagnostics ++ [m.type] },
        [Effect.diagnosticLogged m.type])

/-- Process a sequence of inbound frames in arrival order
(`ws.onmessage` invokes `handleMessage` per frame, dashboard.js
35-37). -/
def handleMessages (st : DashState) : List Message → DashState
  | [] => st
  | m :: ms => handleMessages (handleMessage st m).1 ms

/-- Dashboard state right after page load: empty alerts container,
all-zero stats panel, empty event log. -/
def initDashState : DashState :=
  { alertSys := initAlertSys, stats := initStats, eventLog := []
    diagnostics := [], now := 0 }

/-! # Theorems -/

/-! ## C1: stats merging -/

/-- C1 (counterexample): applying `updateThreatStats` with
`{total_detections: 5}` and then `{layer1_supervised: 3}` does NOT
yield `{total_detections: 5, layer1_supervised: 3}`: the second update
resets `total_detections` to 0, because each update rewrites every
field with a `|| 0` fallback instead of merging. -/
theorem merge_counterexample :
    (updateThreatStats
        (updateThreatStats initStats (some { total_detections := some 5 }))
        (some { layer1_supervised := some 3 })).total_detections = 0 ∧
    ¬ updateThreatStats
        (updateThreatStats initStats (some { total_detections := some 5 }))
        (some { layer1_supervised := some 3 }) =
      { total_detections := 5, layer1_supervised := 3 } := by
  exact ⟨rfl, by decide⟩

/-- C1 (amended): `updateThreatStats` with a present partial snapshot
REPLACES the whole snapshot: the result is independent of the current
values, each field is the partial's value with absent fields defaulting
to 0; a falsy partial leaves the snapshot untouched; and re-applying an
identical partial is a no-op. -/
theorem merge_replaces (cur cur2 : StatsSnapshot) (p : PartialStats) :
    updateThreatStats cur (some p) = updateThreatStats cur2 (some p) ∧
    updateThreatStats cur none = cur ∧
    (updateThreatStats cur (some p)).total_detections =
      p.total_detections.getD 0 ∧
    (updateThreatStats cur (some p)).layer1_supervised =
      p.layer1_supervised.getD 0 ∧
    (updateThreatStats cur (some p)).layer2_anomaly =
      p.layer2_anomaly.getD 0 ∧
    (updateThreatStats cur (some p)).layer3_rules =
      p.layer3_rules.getD 0 ∧
    (updateThreatStats cur (some p)).layer4_slow =
      p.layer4_slow.getD 0 ∧
    updateThreatStats (updateThreatStats cur (some p)) (some p) =
      updateThreatStats cur (some p) :=
  ⟨rfl, rfl, rfl, rfl, rfl, rfl, rfl, rfl⟩

/-! ## C2: reconnectAttempts counts scheduled reconnects -/

theorem stepCount_inv (p : ConnState × Nat)
    (h1 : p.1.reconnectAttempts = p.2) (h2 : p.2 ≤ maxReconnectAttempts)
    (e : ConnEvent) :
    (stepCount p e).1.reconnectAttempts = (stepCount p e).2 ∧
    (stepCount p e).2 ≤ maxReconnectAttempts := by
  cases e with
  | openEv => simp [stepCount, onOpen]
  | closeEv =>
    by_cases hlt : p.2 < maxReconnectAttempts
    · simp [stepCount, onClose, attemptReconnect, h1, hlt]
      omega
    · simp [stepCount, onClose, attemptReconnect, h1, hlt]
      exact h2

theorem foldl_stepCount_inv (evs : List ConnEvent) (p : ConnState × Nat)
    (h1 : p.1.reconnectAttempts = p.2)
    (h2 : p.2 ≤ maxReconnectAttempts) :
    (evs.foldl stepCount p).1.reconnectAttempts =
      (evs.foldl stepCount p).2 ∧
    (evs.foldl stepCount p).2 ≤ maxReconnectAttempts := by
  induction evs generalizing p with
  | nil => exact ⟨h1, h2⟩
  | cons e es ih =>
    simp only [List.foldl_cons]
    have hstep := stepCount_inv p h1 h2 e
    exact ih _ hstep.1 hstep.2

/-- C2: along every trace of transport events, `reconnectAttempts`
equals the number of reconnect attempts scheduled since the last
successful open, never exceeds `maxReconnectAttempts` (5), and any
trace ending in a successful open leaves it at 0. -/
theorem reconnect_attempts_counter (evs : List ConnEvent) :
    (runConn evs).1.reconnectAttempts = (runConn evs).2 ∧
    (runConn evs).1.reconnectAttempts ≤ maxReconnectAttempts ∧
    ∀ pre : List ConnEvent, evs = pre ++ [ConnEvent.openEv] →
      (runConn evs).1.reconnectAttempts = 0 := by
  have hinv := foldl_stepCount_inv evs (connectWebSocket initConnState, 0)
    rfl (by norm_num)
  have h1 : (runConn evs).1.reconnectAttempts = (runConn evs).2 := hinv.1
  have h2 : (runConn evs).2 ≤ maxReconnectAttempts := hinv.2
  refine ⟨h1, by rw [h1]; exact h2, ?_⟩
  intro pre hpre
  subst hpre
  simp [runConn, List.foldl_append, stepCount, onOpen]

/-- C2 witness: a failed connection followed by a successful reconnect
leaves `reconnectAttempts` at 0. -/
theorem reconnect_attempts_counter_witness :
    (runConn [ConnEvent.closeEv, ConnEvent.openEv]).1.reconnectAttempts
      = 0 :=
  (reconnect_attempts_counter [ConnEvent.closeEv, ConnEvent.openEv]).2.2
    [ConnEvent.closeEv] rfl

/-! ## C3: fixed 3000 ms retry delay, terminal failed state -/

theorem onClose_saturated (t : ConnState)
    (ht : maxReconnectAttempts ≤ t.reconnectAttempts) :
    (onClose t).1.reconnectAttempts = t.reconnectAttempts ∧
    (onClose t).2 = none ∧ (onClose t).1.status = "failed" := by
  have hnot : ¬ t.reconnectAttempts < maxReconnectAttempts := not_lt.mpr ht
  simp [onClose, attemptReconnect, hnot]

theorem closesSchedule_saturated (n : Nat) :
    ∀ t : ConnState, maxReconnectAttempts ≤ t.reconnectAttempts →
      closesSchedule t n = [] := by
  induction n with
  | zero => intro t _; rfl
  | succ k ih =>
    intro t ht
    have h := onClose_saturated t ht
    have htail : closesSchedule (onClose t).1 k = [] := by
      refine ih _ ?_
      rw [h.1]
      exact ht
    simp [closesSchedule, h.2.1, htail]

theorem closesSchedule_add (m n : Nat) :
    ∀ s : ConnState, closesSchedule s (m + n) =
      closesSchedule s m ++ closesSchedule (closeRunN s m) n := by
  induction m with
  | zero => intro s; simp [closesSchedule, closeRunN]
  | succ k ih =>
    intro s
    have hsum : k + 1 + n = (k + n) + 1 := by omega
    rw [hsum]
    simp only [closesSchedule, closeRunN]
    rw [ih]
    simp [List.append_assoc]

/-- C3: a close event with `reconnectAttempts < 5` schedules exactly one
retry (`some 3000`, a fixed delay), incrementing `reconnectAttempts`
before the retry fires; a close event with `reconnectAttempts` at the
cap marks the state failed and schedules nothing; once saturated, no
number of further close events ever schedules a retry; and from a fresh
dashboard whose every connection attempt fails, the state is failed
after the initial failure plus exactly 5 failed reconnect attempts,
with exactly 5 retries (all at delay 3000) ever scheduled no matter how
many more close events arrive. -/
theorem reconnect_fixed_delay_terminal (s t : ConnState)
    (hs : s.reconnectAttempts < maxReconnectAttempts)
    (ht : maxReconnectAttempts ≤ t.reconnectAttempts) (n : Nat) :
    (onClose s).2 = some 3000 ∧
    (onClose s).1.reconnectAttempts = s.reconnectAttempts + 1 ∧
    (onClose t).2 = none ∧
    (onClose t).1.status = "failed" ∧
    closesSchedule t n = [] ∧
    (closeRunN (connectWebSocket initConnState) 6).status = "failed" ∧
    closesSchedule (connectWebSocket initConnState) (6 + n) =
      List.replicate maxReconnectAttempts 3000 := by
  have hsat := onClose_saturated t ht
  refine ⟨?_, ?_, hsat.2.1, hsat.2.2, closesSchedule_saturated n t ht,
    by decide, ?_⟩
  · simp [onClose, attemptReconnect, hs]
  · simp [onClose, attemptReconnect, hs]
  · rw [closesSchedule_add 6 n]
    have h6 : closesSchedule (connectWebSocket initConnState) 6 =
        List.replicate maxReconnectAttempts 3000 := by decide
    have hterm : closesSchedule
        (closeRunN (connectWebSocket initConnState) 6) n = [] :=
      closesSchedule_saturated n _ (by decide)
    rw [h6, hterm, List.append_nil]

/-- C3 witness: concrete states on both sides of the cap. -/
theorem reconnect_fixed_delay_terminal_witness :
    (onClose { hasWs := true, isConnected := true, reconnectAttempts := 2
               status := "connected" }).2 = some 3000 ∧
    (onClose { hasWs := true, isConnected := false, reconnectAttempts := 5
               status := "disconnected" }).1.status = "failed" := by
  have h := reconnect_fixed_delay_terminal
    { hasWs := true, isConnected := true, reconnectAttempts := 2
      status := "connected" }
    { hasWs := true, isConnected := false, reconnectAttempts := 5
      status := "disconnected" }
    (by decide) (by decide) 3
  exact ⟨h.1, h.2.2.2.1⟩

/-! ## C4: EventLog bound and eviction -/

theorem trimLog_eq_take : ∀ l : List LogEntry,
    trimLog l = l.take maxLogEntries := by
  have H : ∀ n : Nat, ∀ l : List LogEntry, l.length ≤ n →
      trimLog l = l.take maxLogEntries := by
    intro n
    induction n with
    | zero =>
      intro l hl
      have hnil : l = [] := List.eq_nil_of_length_eq_zero (by omega)
      subst hnil
      rw [trimLog]
      simp
    | succ k ih =>
      intro l hl
      rw [trimLog]
      split
      case isTrue h =>
        rw [ih l.dropLast (by rw [List.length_dropLast]; omega)]
        rw [List.dropLast_eq_take, List.take_take]
        congr 1
        simp only [maxLogEntries] at h ⊢
        omega
      case isFalse h =>
        rw [List.take_of_length_le (by omega)]
  intro l
  exact H l.length l le_rfl

theorem addToEventLog_head (l : List LogEntry) (a b c : String) :
    (addToEventLog l a b c).head? =
      some { eventType := a, message := b, level := c } := by
  rw [addToEventLog, trimLog_eq_take]
  rw [show maxLogEntries = 49 + 1 from rfl, List.take_succ_cons]
  rfl

theorem addToEventLog_length (l : List LogEntry) (a b c : String) :
    (addToEventLog l a b c).length =
      min (l.length + 1) maxLogEntries := by
  rw [addToEventLog, trimLog_eq_take, List.length_take]
  simp [Nat.min_comm]

theorem addToEventLog_le (l : List LogEntry) (a b c : String) :
    (addToEventLog l a b c).length ≤ maxLogEntries := by
  rw [addToEventLog_length]
  omega

theorem foldl_addToEventLog_le (es : List (String × String × String)) :
    ∀ acc : List LogEntry, acc.length ≤ maxLogEntries →
      (es.foldl (fun acc e => addToEventLog acc e.1 e.2.1 e.2.2)
        acc).length ≤ maxLogEntries := by
  induction es with
  | nil => intro acc hacc; exact hacc
  | cons e es ih =>
    intro acc _
    simp only [List.foldl_cons]
    exact ih _ (addToEventLog_le acc e.1 e.2.1 e.2.2)

/-- C4: `addToEventLog` inserts the new entry at the head; the log never
exceeds 50 entries along any append sequence; and appending to a full
50-entry log yields exactly the new entry followed by the old log minus
its last (oldest) element — the oldest entry is evicted, the
second-oldest becomes the new tail, all other entries keep their order
unchanged. -/
theorem event_log_bounded_fifo (log : List LogEntry)
    (a b c : String) (hfull : log.length = maxLogEntries) :
    addToEventLog log a b c =
      { eventType := a, message := b, level := c } :: log.dropLast ∧
    (∀ (l : List LogEntry) (x y z : String),
      (addToEventLog l x y z).head? =
        some { eventType := x, message := y, level := z } ∧
      (addToEventLog l x y z).length ≤ maxLogEntries) ∧
    ∀ es : List (String × String × String),
      (es.foldl (fun acc e => addToEventLog acc e.1 e.2.1 e.2.2)
        ([] : List LogEntry)).length ≤ maxLogEntries := by
  refine ⟨?_, fun l x y z => ⟨addToEventLog_head l x y z,
    addToEventLog_le l x y z⟩,
    fun es => foldl_addToEventLog_le es [] (by simp [maxLogEntries])⟩
  rw [addToEventLog, trimLog_eq_take]
  rw [show maxLogEntries = 49 + 1 from rfl, List.take_succ_cons]
  rw [List.dropLast_eq_take, hfull]
  rfl

/-- C4 witness: appending a 51st entry to a concrete full log evicts
exactly the tail entry. -/
theorem event_log_bounded_fifo_witness :
    addToEventLog
        (List.replicate 50
          { eventType := "E", message := "m", level := "info" })
        "THREAT_DETECTED" "ransom" "critical" =
      { eventType := "THREAT_DETECTED", message := "ransom"
        level := "critical" } ::
        (List.replicate 50
          ({ eventType := "E", message := "m", level := "info" } :
            LogEntry)).dropLast :=
  (event_log_bounded_fifo
    (List.replicate 50 { eventType := "E", message := "m", level := "info" })
    "THREAT_DETECTED" "ransom" "critical" (by simp [maxLogEntries])).1

/-! ## C5: send gated on connection state -/

/-- C5: while the connection is not flagged connected, `sendMessage`
hands nothing to the transport and reports the not-connected condition
as a logged error value (it is returned, not thrown — `sendMessage` is
a total function); and whenever `sendMessage` does transmit, the state
was connected with a live socket and exactly the given command was
transmitted. -/
theorem send_requires_connected (s : ConnState) (msg : Command)
    (h : s.isConnected = false) :
    (sendMessage s msg).1 = [] ∧
    (sendMessage s msg).2 = some "WebSocket not connected" ∧
    ∀ s2 : ConnState, (sendMessage s2 msg).1 ≠ [] →
      s2.isConnected = true ∧ s2.hasWs = true ∧
      (sendMessage s2 msg).1 = [msg] := by
  refine ⟨by simp [sendMessage, h], by simp [sendMessage, h], ?_⟩
  intro s2 hne
  by_cases hc : s2.hasWs && s2.isConnected
  · rw [Bool.and_eq_true] at hc
    exact ⟨hc.2, hc.1, by simp [sendMessage, hc.1, hc.2]⟩
  · exact absurd (by simp [sendMessage, hc]) hne

/-- C5 witness: sending `START_MONITORING` while disconnected. -/
theorem send_requires_connected_witness :
    (sendMessage
      { hasWs := true, isConnected := false, reconnectAttempts := 0
        status := "disconnected" }
      { type := "START_MONITORING" }).1 = [] ∧
    (sendMessage
      { hasWs := true, isConnected := false, reconnectAttempts := 0
        status := "disconnected" }
      { type := "START_MONITORING" }).2 =
      some "WebSocket not connected" := by
  have h := send_requires_connected
    { hasWs := true, isConnected := false, reconnectAttempts := 0
      status := "disconnected" }
    { type := "START_MONITORING" } rfl
  exact ⟨h.1, h.2.1⟩

/-! ## C6: unknown message types are fail-soft -/

/-- C6: dispatching a message whose type is none of the six handled
types invokes no handler: the only effect is the diagnostic record of
the type; the event log, alerts and stats are unchanged; the unknown
type is appended to the diagnostics; and processing of the remaining
messages continues unaffected (dispatch is a total function — nothing
is thrown). -/
theorem unknown_type_fail_soft (st : DashState) (m : Message)
    (h : m.type ∉ handledTypes) :
    (handleMessage st m).2 = [Effect.diagnosticLogged m.type] ∧
    (handleMessage st m).1.eventLog = st.eventLog ∧
    (handleMessage st m).1.alertSys = st.alertSys ∧
    (handleMessage st m).1.stats = st.stats ∧
    (handleMessage st m).1.diagnostics = st.diagnostics ++ [m.type] ∧
    ∀ ms : List Message,
      handleMessages st (m :: ms) =
        handleMessages (handleMessage st m).1 ms := by
  simp only [handledTypes, List.mem_cons, List.not_mem_nil, or_false,
    not_or] at h
  obtain ⟨h1, h2, h3, h4, h5, h6⟩ := h
  refine ⟨?_, ?_, ?_, ?_, ?_, fun ms => rfl⟩ <;>
    simp [handleMessage, h1, h2, h3, h4, h5, h6]

/-- C6 witness: the spec scenario `{type: "FOO_UNKNOWN"}`. -/
theorem unknown_type_fail_soft_witness :
    (handleMessage initDashState
      { type := "FOO_UNKNOWN", data := "", detection_stats := none
        actions := [], commands := [] }).2 =
      [Effect.diagnosticLogged "FOO_UNKNOWN"] ∧
    (handleMessage initDashState
      { type := "FOO_UNKNOWN", data := "", detection_stats := none
        actions := [], commands := [] }).1.eventLog =
      initDashState.eventLog := by
  have h := unknown_type_fail_soft initDashState
    { type := "FOO_UNKNOWN", data := "", detection_stats := none
      actions := [], commands := [] } (by decide)
  exact ⟨h.1, h.2.1⟩

/-! ## C8: automatic GET_STATUS on entering connected state -/

/-- C8: the `onopen` callback (which runs on every successful open,
initial or reconnect) marks the state connected and hands exactly the
`GET_STATUS` command to the transport, with no external trigger. -/
theorem open_sends_get_status (s : ConnState) (h : s.hasWs = true) :
    (onOpen s).2 = [{ type := "GET_STATUS" }] ∧
    (onOpen s).1.isConnected = true ∧
    (onOpen s).1.status = "connected" ∧
    (onOpen s).1.reconnectAttempts = 0 := by
  simp [onOpen, requestStatusUpdate, sendMessage, h]

/-- C8 witness: the freshly constructed dashboard, right after
`connectWebSocket`, sends `GET_STATUS` when its open event fires. -/
theorem open_sends_get_status_witness :
    (onOpen (connectWebSocket initConnState)).2 =
      [{ type := "GET_STATUS" }] :=
  (open_sends_get_status (connectWebSocket initConnState) rfl).1

/-! ## C7: teardown and outstanding timers -/

/-- C7 (counterexample): concrete session with a pending alert-expiry
timer (handle 1), the stored stats-polling interval (handle 2), and a
pending reconnect timeout (handle 3).  `DashboardUpdater.stop` — the
only teardown routine in the source — leaves the alert-expiry and
reconnect timers pending, so their callbacks still fire after the
close; the claim that every outstanding timer is cancelled is false. -/
theorem teardown_counterexample :
    DashboardUpdater.stop
        (startRealTimeUpdates { statsInterval := none } 2
          (scheduleAlertExpiry 1 0 [])).1
        (scheduleReconnect 3
          (startRealTimeUpdates { statsInterval := none } 2
            (scheduleAlertExpiry 1 0 [])).2) =
      [{ id := 3, kind := TimerKind.reconnect },
       { id := 1, kind := TimerKind.alertExpiry 0 }] ∧
    DashboardUpdater.stop
        (startRealTimeUpdates { statsInterval := none } 2
          (scheduleAlertExpiry 1 0 [])).1
        (scheduleReconnect 3
          (startRealTimeUpdates { statsInterval := none } 2
            (scheduleAlertExpiry 1 0 [])).2) ≠ [] := by
  exact ⟨by decide, by decide⟩

/-- C7 (amended): the only explicit teardown in the source,
`DashboardUpdater.stop()`, cancels exactly the periodic stats-polling
interval whose handle it stored: no timer with that handle survives,
and every other pending timer — in particular the reconnect timeout and
all alert-expiry timeouts, whose handles are never stored — survives
the teardown and can still fire afterwards. -/
theorem teardown_cancels_only_polling (u : DashboardUpdater) (hid : Nat)
    (h : u.statsInterval = some hid) (pending : List PendingTimer) :
    (∀ tm ∈ DashboardUpdater.stop u pending, tm.id ≠ hid) ∧
    (∀ tm ∈ pending, tm.id ≠ hid →
      tm ∈ DashboardUpdater.stop u pending) := by
  constructor
  · intro tm htm
    rw [DashboardUpdater.stop, h] at htm
    simp only [List.mem_filter, decide_eq_true_eq] at htm
    exact htm.2
  · intro tm htm hne
    rw [DashboardUpdater.stop, h]
    simp only [List.mem_filter, decide_eq_true_eq]
    exact ⟨htm, hne⟩

/-- C7 witness: stopping a concrete updater removes its polling
interval but keeps a pending alert-expiry timer. -/
theorem teardown_cancels_only_polling_witness :
    (∀ tm ∈ DashboardUpdater.stop { statsInterval := some 2 }
        [{ id := 1, kind := TimerKind.alertExpiry 0 },
         { id := 2, kind := TimerKind.statsPoll }], tm.id ≠ 2) ∧
    ({ id := 1, kind := TimerKind.alertExpiry 0 } : PendingTimer) ∈
      DashboardUpdater.stop { statsInterval := some 2 }
        [{ id := 1, kind := TimerKind.alertExpiry 0 },
         { id := 2, kind := TimerKind.statsPoll }] := by
  have h := teardown_cancels_only_polling { statsInterval := some 2 } 2
    rfl
    [{ id := 1, kind := TimerKind.alertExpiry 0 },
     { id := 2, kind := TimerKind.statsPoll }]
  exact ⟨h.1, h.2 _ (by decide) (by decide)⟩

/-! ## C9: alert TTL policy -/

/-- C9: creating an alert schedules its removal exactly 10000 ms after
creation (5000 ms for a toast); as long as the clock has not reached
`createdAt + 10000` the alert is still present, and once the clock
passes that instant its fired timer has removed it; and two alerts of
the same kind coexist unmerged, each with its own id and its own
independent removal timer. -/
theorem alert_ttl_policy (st : AlertSys) (now : Nat) (kind : String)
    (p : AlertPayload)
    (hfresh : ∀ tm ∈ st.timers, tm.alertId ≠ st.nextId) :
    (showAlert st now kind p).timers =
      { alertId := st.nextId, fireAt := now + 10000 } :: st.timers ∧
    (showAlert st now kind p).alerts =
      { id := st.nextId, kind := kind, payload := p, createdAt := now }
        :: st.alerts ∧
    (∀ t, t < now + 10000 →
      ({ id := st.nextId, kind := kind, payload := p, createdAt := now }
        : AlertRec) ∈ (advanceTo t (showAlert st now kind p)).alerts) ∧
    (∀ t, now + 10000 ≤ t →
      ∀ a ∈ (advanceTo t (showAlert st now kind p)).alerts,
        a.id ≠ st.nextId) ∧
    (∀ (ts : ToastSys) (msg ty : String),
      (showToast ts now msg ty).timers.head? =
        some { alertId := ts.nextId, fireAt := now + 5000 }) ∧
    (showAlert (showAlert st now kind p) now kind p).alerts.take 2 =
      [{ id := st.nextId + 1, kind := kind, payload := p
         createdAt := now },
       { id := st.nextId, kind := kind, payload := p
         createdAt := now }] ∧
    (showAlert (showAlert st now kind p) now kind p).timers.take 2 =
      [{ alertId := st.nextId + 1, fireAt := now + 10000 },
       { alertId := st.nextId, fireAt := now + 10000 }] := by
  refine ⟨rfl, rfl, ?_, ?_, fun ts msg ty => rfl, rfl, rfl⟩
  · intro t ht
    simp only [advanceTo, showAlert, List.filter_cons]
    have hnot : ¬ now + 10000 ≤ t := by omega
    simp only [decide_eq_true_eq, hnot, if_false]
    have hpred : (st.timers.filter
        (fun tm => decide (tm.fireAt ≤ t))).all
        (fun tm => decide (tm.alertId ≠ st.nextId)) = true := by
      rw [List.all_eq_true]
      intro tm htm
      simp only [decide_eq_true_eq]
      exact hfresh tm (List.mem_of_mem_filter htm)
    simp only [hpred, if_true]
    exact List.mem_cons_self _ _
  · intro t ht a ha
    simp only [advanceTo, showAlert, List.mem_filter,
      List.all_eq_true] at ha
    obtain ⟨_, hall⟩ := ha
    have h2 := hall ({ alertId := st.nextId, fireAt := now + 10000 }
      : ATimer) ⟨List.mem_cons_self _ _, by
        simp only [decide_eq_true_eq]; exact ht⟩
    simp only [decide_eq_true_eq] at h2
    exact fun heq => h2 heq.symm

/-- C9 witness: a single alert created at time 0 in an empty container
is pending removal at 10000, still present at 9999 and gone at
10001. -/
theorem alert_ttl_policy_witness :
    (showAlert initAlertSys 0 "threat"
      (AlertPayload.dataField "x")).timers =
      [{ alertId := 0, fireAt := 10000 }] ∧
    ({ id := 0, kind := "threat", payload := AlertPayload.dataField "x"
       createdAt := 0 } : AlertRec) ∈
      (advanceTo 9999 (showAlert initAlertSys 0 "threat"
        (AlertPayload.dataField "x"))).alerts ∧
    ∀ a ∈ (advanceTo 10001 (showAlert initAlertSys 0 "threat"
        (AlertPayload.dataField "x"))).alerts, a.id ≠ 0 := by
  have h := alert_ttl_policy initAlertSys 0 "threat"
    (AlertPayload.dataField "x") (by simp [initAlertSys])
  refine ⟨?_, ?_, ?_⟩
  · have := h.1
    simpa [initAlertSys] using this
  · have := h.2.2.1 9999 (by omega)
    simpa [initAlertSys] using this
  · have := h.2.2.2.1 10001 (by omega)
    simpa [initAlertSys] using this

/-! ## C10: THREAT_DETECTED handler effects -/

/-- C10: dispatching a `THREAT_DETECTED` message produces exactly three
effects, in order: a `threat` alert from the message `data` field, a
stats update from the `detection_stats` field, and one appended event
log entry with type `THREAT_DETECTED` and level `critical` (the log
grows by exactly one entry, up to the 50-entry cap). -/
theorem threat_detected_effects (st : DashState) (m : Message)
    (h : m.type = "THREAT_DETECTED") :
    (handleMessage st m).2 =
      [Effect.alertShown "threat" (AlertPayload.dataField m.data),
       Effect.statsUpdated m.detection_stats,
       Effect.logAppended "THREAT_DETECTED" m.data "critical"] ∧
    (handleMessage st m).1.alertSys =
      showAlert st.alertSys st.now "threat"
        (AlertPayload.dataField m.data) ∧
    (handleMessage st m).1.stats =
      updateThreatStats st.stats m.detection_stats ∧
    (handleMessage st m).1.eventLog =
      addToEventLog st.eventLog "THREAT_DETECTED" m.data "critical" ∧
    (handleMessage st m).1.eventLog.head? =
      some { eventType := "THREAT_DETECTED", message := m.data
             level := "critical" } ∧
    (handleMessage st m).1.eventLog.length =
      min (st.eventLog.length + 1) maxLogEntries := by
  have hunfold : handleMessage st m = handleThreatDetected st m := by
    simp [handleMessage, h]
  rw [hunfold]
  refine ⟨rfl, rfl, rfl, rfl, ?_, ?_⟩
  · exact addToEventLog_head st.eventLog "THREAT_DETECTED" m.data
      "critical"
  · exact addToEventLog_length st.eventLog "THREAT_DETECTED" m.data
      "critical"

/-- C10 witness: a concrete `THREAT_DETECTED` message dispatched
against the freshly loaded dashboard. -/
theorem threat_detected_effects_witness :
    (handleMessage initDashState
      { type := "THREAT_DETECTED", data := "enc.exe"
        detection_stats := some { total_detections := some 1 }
        actions := [], commands := [] }).2 =
      [Effect.alertShown "threat" (AlertPayload.dataField "enc.exe"),
       Effect.statsUpdated (some { total_detections := some 1 }),
       Effect.logAppended "THREAT_DETECTED" "enc.exe" "critical"] ∧
    (handleMessage initDashState
      { type := "THREAT_DETECTED", data := "enc.exe"
        detection_stats := some { total_detections := some 1 }
        actions := [], commands := [] }).1.eventLog.length = 1 := by
  have h := threat_detected_effects initDashState
    { type := "THREAT_DETECTED", data := "enc.exe"
      detection_stats := some { total_detections := some 1 }
      actions := [], commands := [] } rfl
  refine ⟨h.1, ?_⟩
  rw [h.2.2.2.2.2]
  simp [initDashState, maxLogEntries]

end ZeroTrust
